import Mathlib

/-!
Verification of `src/gdb/sslkeylog.py` (PlainSSL).

The Python module is shallowly embedded: target-process memory fields become
explicit byte lists (`Fin 256`), pointers that are compared against the null
sentinel become `Option`, file handles become a record of their content and a
`closed` flag, and Python exceptions become `Except` values whose error
component also carries the state at the moment the exception is raised
(Python exceptions do not roll back prior mutations).

Out of model: the gdb inferior itself (breakpoint registration is modelled as
the module-level `_locations` table plus the debugger's table of live
breakpoint objects), `gdb.execute('continue')`, and breakpoint hit counts
(they depend on target execution).
-/

/-- Uppercase hexadecimal digit, as produced by Python's `'%02X'` format. -/
def hexDigitU (n : Nat) : Char :=
  if n < 10 then Char.ofNat (48 + n) else Char.ofNat (55 + n)

/-- Rendering of one byte by `'%02X' % ord(x)`: two uppercase hex digits. -/
def byteToHex (b : Fin 256) : String :=
  String.mk [hexDigitU (b.val / 16), hexDigitU (b.val % 16)]

/-- `_read_as_hex(value, size)`: read `size` bytes starting at the field's
address and join their `'%02X'` renderings.  The memory at the field is the
byte list `field`; reading `size` bytes is `field.take size`. -/
def _read_as_hex (field : List (Fin 256)) (size : Nat) : String :=
  ((field.take size).map byteToHex).foldr (· ++ ·) ""

/-- The `SSL_SESSION` struct fields the script dereferences. -/
structure SSL_SESSION where
  master_key_length : Int
  master_key : List (Fin 256)
deriving DecidableEq

/-- The `s3` (TLS state) substructure field the script dereferences. -/
structure SSL3_STATE where
  client_random : List (Fin 256)
deriving DecidableEq

/-- The `SSL` connection object: `session` and `s3` are pointers, `none`
models the null sentinel (`== 0`). -/
structure SSL where
  session : Option SSL_SESSION
  s3 : Option SSL3_STATE
deriving DecidableEq

/-- `_ssl_get_master_key`: if `session != 0 and session['master_key_length'] > 0`
read 48 bytes of master key as hex, else `None`. -/
def _ssl_get_master_key (ssl_ptr : SSL) : Option String :=
  match ssl_ptr.session with
  | none => none
  | some session =>
    if session.master_key_length > 0 then
      some (_read_as_hex session.master_key 48)
    else none

/-- `get_keylog_line`: returns `(client_random, master_key)` for the current
SSL session, or `None` when `s3 == 0 or mk is None`. -/
def get_keylog_line (ssl_ptr : SSL) : Option (String × String) :=
  let mk := _ssl_get_master_key ssl_ptr
  match ssl_ptr.s3, mk with
  | none, _ => none
  | some _, none => none
  | some s3, some mkv => some (_read_as_hex s3.client_random 32, mkv)

/-- A Python file object: accumulated content, whether `tell()` works
(seekable), and whether `close()` has run. -/
structure FileHandle where
  content : String
  seekable : Bool
  closed : Bool
deriving DecidableEq

/-- `f.write(s)`: raises `ValueError` on a closed file, otherwise appends. -/
def FileHandle.write (f : FileHandle) (s : String) : Except String FileHandle :=
  if f.closed then Except.error "ValueError: I/O operation on closed file"
  else Except.ok { f with content := f.content ++ s }

def _SSL_KEYLOG_HEADER : String := "# Automatically generated by sslkeylog.py\n"

/-- A character the `'ascii'` codec accepts. -/
def isAsciiChar (c : Char) : Bool := c.toNat < 128

/-- `s.encode('ascii')` succeeds exactly when every character is ASCII. -/
def isAsciiString (s : String) : Bool := s.data.all isAsciiChar

/-- `line.encode('ascii')`: identity on ASCII strings, `UnicodeEncodeError`
otherwise. -/
def encodeAscii (s : String) : Except String String :=
  if isAsciiString s then Except.ok s else Except.error "UnicodeEncodeError"

/-- The formatted log line `'CLIENT_RANDOM %s %s\n' % (client_random, master_key)`. -/
def keylogLine (client_random master_key : String) : String :=
  "CLIENT_RANDOM " ++ client_random ++ " " ++ master_key ++ "\n"

/-- The `Keylog` object: the owned file handle and the `written_items`
fingerprint set (a Python `set`; modelled as the list of elements in insertion
order, `notify` only ever adds an element after a membership test). -/
structure Keylog where
  keylog_file : FileHandle
  written_items : List String
deriving DecidableEq

/-- `Keylog.notify`: put a new entry in the key log if not already known.
Order as in the source: membership test, format + `encode('ascii')`,
`write`, then record the fingerprint.  An exception (encode error, or write
on a closed file) propagates carrying the unchanged `Keylog`. -/
def Keylog.notify (k : Keylog) (client_random master_key : String) :
    Except (String × Keylog) Keylog :=
  if client_random ∈ k.written_items then Except.ok k
  else
    match encodeAscii (keylogLine client_random master_key) with
    | Except.error e => Except.error (e, k)
    | Except.ok line =>
      match k.keylog_file.write line with
      | Except.error e => Except.error (e, k)
      | Except.ok f => Except.ok ⟨f, k.written_items ++ [client_random]⟩

/-- `Keylog.close` is declared in the source without a `self` parameter, so
the instance call `_keylog_file.close()` raises `TypeError` before its body
(`self.keylog_file.close()`) can run; the file handle is never closed. -/
def Keylog.close (k : Keylog) : Except (String × Keylog) Unit :=
  Except.error ("TypeError: close() takes 0 positional arguments but 1 was given", k)

def ESPIPE : Nat := 29

/-- What the filesystem offers at one path when `Keylog.create` opens it:
whether `open(filename, 'ab', 0)` raises `OSError` (and with which errno),
the existing content, and whether the stream supports `tell()`. -/
structure Medium where
  openAbErrno : Option Nat
  content : String
  seekable : Bool
deriving DecidableEq

/-- `needs_header(f)`: `f.tell() == 0`, where `tell` on the append-opened
handle reports the end-of-file position (CPython seeks to the end when
opening in append mode); if the stream is unseekable `tell` raises and the
bare `except` returns `False`. -/
def needs_header (f : FileHandle) : Bool :=
  f.seekable && (f.content.length == 0)

/-- `Keylog.create(filename)`: open in unbuffered append-binary mode; on
`ESPIPE` (the stream cannot seek, e.g. stderr or a pipe) fall back to plain
write mode, whose handle starts empty and — being a pipe — cannot `tell`;
any other `OSError` propagates.  Write the header iff `needs_header`. -/
def Keylog.create (m : Medium) : Except String Keylog :=
  let openRes : Except String FileHandle :=
    match m.openAbErrno with
    | none => Except.ok ⟨m.content, m.seekable, false⟩
    | some e =>
      if e = ESPIPE then Except.ok ⟨"", false, false⟩
      else Except.error ("OSError errno " ++ toString e)
  match openRes with
  | Except.error e => Except.error e
  | Except.ok f =>
    if needs_header f then
      match f.write _SSL_KEYLOG_HEADER with
      | Except.error e => Except.error e
      | Except.ok f2 => Except.ok ⟨f2, []⟩
    else Except.ok ⟨f, []⟩

/-- `SKLFinishBreakpoint.stop`: attempt to recover key material at the
return point; a nonempty result is forwarded to `Keylog.notify`; returns
`False` (continue execution).  There is no exception handler, so a notify
error propagates out of the callback. -/
def SKLFinishBreakpoint_stop (ssl_ptr : SSL) (key_listener : Keylog) :
    Except (String × Keylog) (Keylog × Bool) :=
  match get_keylog_line ssl_ptr with
  | none => Except.ok (key_listener, false)
  | some info =>
    match key_listener.notify info.1 info.2 with
    | Except.error e => Except.error e
    | Except.ok k => Except.ok (k, false)

/-- The five symbols of the `_locations` table, in dict insertion order. -/
inductive SSLSymbol
  | SSL_connect
  | SSL_do_handshake
  | SSL_accept
  | SSL_read
  | SSL_write
deriving DecidableEq

/-- The symbol's spelling, as used in the printed messages. -/
def SSLSymbol.name : SSLSymbol → String
  | SSL_connect => "SSL_connect"
  | SSL_do_handshake => "SSL_do_handshake"
  | SSL_accept => "SSL_accept"
  | SSL_read => "SSL_read"
  | SSL_write => "SSL_write"

/-- Iteration order of `_locations.items()` (Python dicts preserve insertion
order). -/
def symbolOrder : List SSLSymbol :=
  [SSLSymbol.SSL_connect, SSLSymbol.SSL_do_handshake, SSLSymbol.SSL_accept,
   SSLSymbol.SSL_read, SSLSymbol.SSL_write]

/-- The module-level mutable state of `sslkeylog.py`, together with the
observable pieces of its environment: `activeBps` is the debugger's table of
live (registered, not yet deleted) `SKLBreakpoint` objects as
(breakpoint number, symbol) pairs, `nextBp` the debugger's next breakpoint
number, and `output` everything printed so far. -/
structure SklState where
  keylog_filename : String
  _keylog_file : Option Keylog
  _locations : SSLSymbol → Option Nat
  nextBp : Nat
  activeBps : List (Nat × SSLSymbol)
  output : List String

/-- Module state right after import: `keylog_filename` is
`getenv('SSLKEYLOGFILE', 'keys.log')`, modelled with the variable unset. -/
def initialState : SklState :=
  { keylog_filename := "keys.log",
    _keylog_file := none,
    _locations := fun _ => none,
    nextBp := 1,
    activeBps := [],
    output := [] }

/-- The live breakpoints registered for one symbol. -/
def activeFor (st : SklState) (sym : SSLSymbol) : List (Nat × SSLSymbol) :=
  st.activeBps.filter (fun p => p.2 == sym)

def alreadyMsg (sym : SSLSymbol) : String :=
  "Breakpoint for " ++ sym.name ++ " is already active, ignoring"

def deleteMsg (n : Nat) (sym : SSLSymbol) : String :=
  "Deleting breakpoint " ++ toString n ++ " (" ++ sym.name ++ ")"

/-- One iteration of the `enable()` loop body: a symbol whose
`_locations` entry is truthy is reported and skipped, otherwise a new
`SKLBreakpoint` is registered and stored. -/
def installOne (st : SklState) (name : SSLSymbol) : SklState :=
  match st._locations name with
  | some _ => { st with output := st.output ++ [alreadyMsg name] }
  | none =>
    { st with
      _locations := fun s => if s = name then some st.nextBp else st._locations s,
      nextBp := st.nextBp + 1,
      activeBps := st.activeBps ++ [(st.nextBp, name)] }

def installAll (st : SklState) : SklState := symbolOrder.foldl installOne st

/-- `enable()`: create the shared `Keylog` first when none is open (a create
failure propagates before any breakpoint is touched), then walk
`_locations`. -/
def enable (fs : String → Medium) (st : SklState) :
    Except (String × SklState) SklState :=
  match st._keylog_file with
  | some _ => Except.ok (installAll st)
  | none =>
    match Keylog.create (fs st.keylog_filename) with
    | Except.error e => Except.error (e, st)
    | Except.ok kl =>
      Except.ok (installAll
        { st with
          _keylog_file := some kl,
          output := st.output ++
            ["Started logging SSL keys to " ++ st.keylog_filename] })

/-- One iteration of the `disable()` loop body (the hit-count suffix of the
message depends on inferior execution and is elided). -/
def disableOne (st : SklState) (name : SSLSymbol) : SklState :=
  match st._locations name with
  | none => st
  | some n =>
    { st with
      output := st.output ++ [deleteMsg n name],
      activeBps := st.activeBps.filter (fun p => p.1 != n),
      _locations := fun s => if s = name then none else st._locations s }

def disable (st : SklState) : SklState := symbolOrder.foldl disableOne st

/-- `stop()`: without an open keylog, report and do nothing.  Otherwise
`disable()` runs, then `_keylog_file.close()` raises `TypeError`
(`Keylog.close` takes no `self`); were that call ever to succeed, the
following `'Logged %d entries in total' % written_items` would itself raise
`TypeError` (`%d` applied to a set).  Either way `stop` raises after
`disable`, the file stays open and `_keylog_file` is never cleared. -/
def stop (st : SklState) : Except (String × SklState) SklState :=
  match st._keylog_file with
  | none => Except.ok { st with output := st.output ++ ["No active keylog session"] }
  | some kl =>
    let st1 := disable st
    match Keylog.close kl with
    | Except.error (e, _) => Except.error (e, st1)
    | Except.ok _ =>
      Except.error ("TypeError: %d format: a number is required, not set", st1)

/-- `start(sslkeylogfile, cont)`: a truthy argument overwrites the
module-global `keylog_filename` (Python truthiness: `None` and `''` do not),
then `enable()`.  The trailing `gdb.execute('continue')` only touches the
inferior and is outside the model. -/
def start (fs : String → Medium) (sslkeylogfile : Option String)
    (st : SklState) : Except (String × SklState) SklState :=
  let st1 := match sslkeylogfile with
    | some p => if p = "" then st else { st with keylog_filename := p }
    | none => st
  enable fs st1

/-- The state an `Except`-valued session operation left behind (Python
exceptions do not roll anything back). -/
def stateOf (r : Except (String × SklState) SklState) : SklState :=
  match r with
  | Except.ok st => st
  | Except.error (_, st) => st

/-- The `Keylog` an `Except`-valued notify left behind. -/
def keylogOf (r : Except (String × Keylog) Keylog) : Keylog :=
  match r with
  | Except.ok k => k
  | Except.error (_, k) => k

/-- `n` successive `notify` calls with the same arguments (stops at the
first exception). -/
def notifyIter (cr mk : String) : Nat → Keylog → Except (String × Keylog) Keylog
  | 0, k => Except.ok k
  | n + 1, k =>
    match Keylog.notify k cr mk with
    | Except.error e => Except.error e
    | Except.ok k1 => notifyIter cr mk n k1

/-- A user-level session operation. -/
inductive SklOp
  | enable
  | disable
deriving DecidableEq

/-- A regular, empty, seekable file at every path: the environment in which
every `enable`/`disable` call succeeds. -/
def goodFs : String → Medium := fun _ => ⟨none, "", true⟩

def stepOp (fs : String → Medium) (st : SklState) :
    SklOp → Except (String × SklState) SklState
  | SklOp.enable => enable fs st
  | SklOp.disable => Except.ok (disable st)

def runOps (fs : String → Medium) :
    List SklOp → SklState → Except (String × SklState) SklState
  | [], st => Except.ok st
  | op :: rest, st =>
    match stepOp fs st op with
    | Except.error e => Except.error e
    | Except.ok st1 => runOps fs rest st1

/-- Total version of `enable goodFs` (it never fails; proved below). -/
def enableT (st : SklState) : SklState := stateOf (enable goodFs st)

def stepT (st : SklState) : SklOp → SklState
  | SklOp.enable => enableT st
  | SklOp.disable => disable st

/-- Total version of `runOps goodFs` (proved equal below). -/
def runT (ops : List SklOp) (st : SklState) : SklState := ops.foldl stepT st

/-! Concrete fixtures used by the closed instance theorems below. -/

/-- A session holding 48 bytes `0xCD` of master key. -/
def sessCD : SSL_SESSION := ⟨48, List.replicate 48 (0xCD : Fin 256)⟩

/-- A tls-state holding 32 bytes `0xAB` of client random. -/
def s3AB : SSL3_STATE := ⟨List.replicate 32 (0xAB : Fin 256)⟩

/-- Connection whose `session` pointer is the null sentinel. -/
def connNullSession : SSL := ⟨none, some s3AB⟩

/-- Connection with a session whose `master_key_length` is 0. -/
def connZeroLen : SSL := ⟨some ⟨0, List.replicate 48 (0xCD : Fin 256)⟩, some s3AB⟩

/-- Connection with a valid session but null `s3` pointer. -/
def connNullS3 : SSL := ⟨some sessCD, none⟩

/-- Connection with all three prerequisites valid. -/
def connValid : SSL := ⟨some sessCD, some s3AB⟩

/-- An open keylog that has already logged two fingerprints. -/
def klOpenC5 : Keylog := ⟨⟨_SSL_KEYLOG_HEADER, true, false⟩, ["ABCD", "1234"]⟩

/-- A running session: keylog open, one breakpoint installed. -/
def stOpenC5 : SklState :=
  { initialState with
    _keylog_file := some klOpenC5,
    _locations := fun s => if s = SSLSymbol.SSL_connect then some 1 else none,
    nextBp := 2,
    activeBps := [(1, SSLSymbol.SSL_connect)] }

/-- State after `start('premaster.txt')` from a fresh module. -/
def stAfterFirst : SklState :=
  stateOf (start goodFs (some "premaster.txt") initialState)

/-- A later session started with no explicit path (the keylog reference has
been cleared in between, everything else as the first session left it). -/
def stSecondStart : SklState :=
  stateOf (start goodFs none { stAfterFirst with _keylog_file := none })

/-- A state in which `SSL_write` is already watched (breakpoint number 7). -/
def stWatched : SklState :=
  { initialState with
    _locations := fun s => if s = SSLSymbol.SSL_write then some 7 else none,
    nextBp := 8,
    activeBps := [(7, SSLSymbol.SSL_write)] }

/-- A keylog whose file has been closed (no fingerprints logged yet). -/
def klClosed : Keylog := ⟨⟨_SSL_KEYLOG_HEADER, true, true⟩, []⟩

/-- A freshly created keylog on an empty unnamed buffer. -/
def klEmpty : Keylog := ⟨⟨"", true, false⟩, []⟩

/-- A character of Python's uppercase `%X` output: `0`..`9` or `A`..`F`. -/
def isUpperHexChar (c : Char) : Bool :=
  (48 ≤ c.toNat && c.toNat ≤ 57) || (65 ≤ c.toNat && c.toNat ≤ 70)

/-- Every character of the string is an uppercase hex digit. -/
def strUpperHex (s : String) : Bool := s.data.all isUpperHexChar

/-- Invariant tying `_locations` to the debugger's live-breakpoint table:
every stored breakpoint number is below the next free number, a number
identifies its symbol uniquely, and the live breakpoints registered for a
symbol are exactly its `_locations` entry — in particular at most one
active watcher per symbol. -/
def WatchInv (st : SklState) : Prop :=
  (∀ sym n, st._locations sym = some n → n < st.nextBp) ∧
  (∀ s1 s2 n, st._locations s1 = some n → st._locations s2 = some n → s1 = s2) ∧
  (∀ sym, activeFor st sym =
    (match st._locations sym with
     | some n => [(n, sym)]
     | none => []))

/-! ### Helper lemmas -/

theorem string_data_append (s t : String) : (s ++ t).data = s.data ++ t.data := by
  cases s; cases t; rfl

theorem string_length_data (s : String) : s.length = s.data.length := rfl

theorem hexDigitU_upper : ∀ n : Fin 16, isUpperHexChar (hexDigitU n.val) = true := by
  decide

theorem byteToHex_upper (b : Fin 256) :
    (byteToHex b).data.all isUpperHexChar = true := by
  have h1 := hexDigitU_upper ⟨b.val / 16, by omega⟩
  have h2 := hexDigitU_upper ⟨b.val % 16, by omega⟩
  simp only [byteToHex, String.mk, List.all_cons, List.all_nil]
  rw [h1, h2]
  rfl

theorem hexfold_data_length (l : List (Fin 256)) :
    ((l.map byteToHex).foldr (· ++ ·) "").data.length = 2 * l.length := by
  induction l with
  | nil => rfl
  | cons b t ih =>
    simp only [List.map_cons, List.foldr_cons]
    rw [string_data_append, List.length_append, ih]
    have hb : (byteToHex b).data.length = 2 := rfl
    rw [hb, List.length_cons]
    omega

theorem hexfold_upper (l : List (Fin 256)) :
    ((l.map byteToHex).foldr (· ++ ·) "").data.all isUpperHexChar = true := by
  induction l with
  | nil => rfl
  | cons b t ih =>
    simp only [List.map_cons, List.foldr_cons]
    rw [string_data_append, List.all_append, ih, byteToHex_upper b]
    rfl

theorem read_as_hex_length (l : List (Fin 256)) (n : Nat) (h : l.length = n) :
    (_read_as_hex l n).length = 2 * n := by
  subst h
  unfold _read_as_hex
  rw [List.take_length, string_length_data]
  exact hexfold_data_length l

theorem read_as_hex_upper (l : List (Fin 256)) (n : Nat) (h : l.length = n) :
    strUpperHex (_read_as_hex l n) = true := by
  subst h
  unfold _read_as_hex strUpperHex
  rw [List.take_length]
  exact hexfold_upper l

theorem upperHex_imp_ascii (c : Char) (h : isUpperHexChar c = true) :
    isAsciiChar c = true := by
  simp only [isUpperHexChar, isAsciiChar, Bool.or_eq_true, Bool.and_eq_true,
    decide_eq_true_eq] at h ⊢
  omega

theorem strUpper_ascii (s : String) (h : strUpperHex s = true) :
    isAsciiString s = true := by
  unfold strUpperHex at h
  unfold isAsciiString
  rw [List.all_eq_true] at h ⊢
  intro c hc
  exact upperHex_imp_ascii c (h c hc)

theorem ascii_append (s t : String) :
    isAsciiString (s ++ t) = (isAsciiString s && isAsciiString t) := by
  unfold isAsciiString
  rw [string_data_append, List.all_append]

theorem keylogLine_ascii (cr mk : String) (h1 : isAsciiString cr = true)
    (h2 : isAsciiString mk = true) :
    isAsciiString (keylogLine cr mk) = true := by
  unfold keylogLine
  rw [ascii_append, ascii_append, ascii_append, ascii_append, h1, h2]
  decide

/-! ### C1: key extraction gating -/

/-- C1: `get_keylog_line` returns `none` when the session pointer is null,
when the session's `master_key_length` is not positive, or when the `s3`
pointer is null; when all three prerequisites hold it returns exactly the
pair (32-byte client random, 48-byte master secret) read as uppercase hex
from `s3.client_random` and `session.master_key`. -/
theorem extract_gating (ssl_ptr : SSL) :
    (ssl_ptr.session = none → get_keylog_line ssl_ptr = none) ∧
    (∀ sess, ssl_ptr.session = some sess → sess.master_key_length ≤ 0 →
      get_keylog_line ssl_ptr = none) ∧
    (∀ sess, ssl_ptr.session = some sess → 0 < sess.master_key_length →
      ssl_ptr.s3 = none → get_keylog_line ssl_ptr = none) ∧
    (∀ sess s3v, ssl_ptr.session = some sess → 0 < sess.master_key_length →
      ssl_ptr.s3 = some s3v →
      get_keylog_line ssl_ptr =
        some (_read_as_hex s3v.client_random 32, _read_as_hex sess.master_key 48)) := by
  refine ⟨?_, ?_, ?_, ?_⟩
  · intro h
    simp only [get_keylog_line, _ssl_get_master_key, h]
    cases hs : ssl_ptr.s3 <;> simp
  · intro sess h hle
    simp only [get_keylog_line, _ssl_get_master_key, h]
    rw [if_neg (by omega : ¬ sess.master_key_length > 0)]
    cases hs : ssl_ptr.s3 <;> simp
  · intro sess h hpos h3
    simp only [get_keylog_line, _ssl_get_master_key, h3]
  · intro sess s3v h hpos h3
    simp only [get_keylog_line, _ssl_get_master_key, h, h3]
    rw [if_pos hpos]

/-- Witness for C1: the four gating cases at concrete connections. -/
theorem extract_gating_app :
    connNullSession.session = none ∧
    get_keylog_line connNullSession = none ∧
    connZeroLen.session = some ⟨0, List.replicate 48 (0xCD : Fin 256)⟩ ∧
    get_keylog_line connZeroLen = none ∧
    connNullS3.s3 = none ∧
    get_keylog_line connNullS3 = none ∧
    get_keylog_line connValid =
      some (_read_as_hex s3AB.client_random 32, _read_as_hex sessCD.master_key 48) :=
  ⟨rfl,
   (extract_gating connNullSession).1 rfl,
   rfl,
   (extract_gating connZeroLen).2.1 _ rfl (by decide),
   rfl,
   (extract_gating connNullS3).2.2.1 sessCD rfl (by decide) rfl,
   (extract_gating connValid).2.2.2 sessCD s3AB rfl (by decide) rfl⟩

/-! ### Keylog.notify behaviour -/

theorem notify_fresh (k : Keylog) (cr mk : String)
    (hclosed : k.keylog_file.closed = false)
    (hascii : isAsciiString (keylogLine cr mk) = true)
    (hmem : cr ∉ k.written_items) :
    Keylog.notify k cr mk =
      Except.ok ⟨{ k.keylog_file with
          content := k.keylog_file.content ++ keylogLine cr mk },
        k.written_items ++ [cr]⟩ := by
  simp [Keylog.notify, encodeAscii, FileHandle.write, hmem, hascii, hclosed]

theorem notify_dup (k : Keylog) (cr mk : String) (h : cr ∈ k.written_items) :
    Keylog.notify k cr mk = Except.ok k := by
  simp [Keylog.notify, h]

theorem notify_closed_fresh (k : Keylog) (cr mk : String)
    (hclosed : k.keylog_file.closed = true)
    (hascii : isAsciiString (keylogLine cr mk) = true)
    (hmem : cr ∉ k.written_items) :
    Keylog.notify k cr mk =
      Except.error ("ValueError: I/O operation on closed file", k) := by
  simp [Keylog.notify, encodeAscii, FileHandle.write, hmem, hascii, hclosed]

/-! ### C2: notify is idempotent per fingerprint -/

/-- C2: a first `notify cr mk` appends exactly the one line and records `cr`
exactly once; any number of repeats with the same `cr` leaves the state at
that single-line result; a second `notify` with a different `cr2` appends a
second line after the first (call order). -/
theorem notify_idempotent (k : Keylog) (cr mk : String)
    (hclosed : k.keylog_file.closed = false)
    (hascii : isAsciiString (keylogLine cr mk) = true)
    (hmem : cr ∉ k.written_items) :
    Keylog.notify k cr mk =
      Except.ok ⟨{ k.keylog_file with
          content := k.keylog_file.content ++ keylogLine cr mk },
        k.written_items ++ [cr]⟩ ∧
    (k.written_items ++ [cr]).count cr = 1 ∧
    (∀ n : Nat, notifyIter cr mk (n + 1) k =
      Except.ok ⟨{ k.keylog_file with
          content := k.keylog_file.content ++ keylogLine cr mk },
        k.written_items ++ [cr]⟩) ∧
    (∀ cr2 mk2, cr2 ≠ cr → cr2 ∉ k.written_items →
      isAsciiString (keylogLine cr2 mk2) = true →
      Keylog.notify
        ⟨{ k.keylog_file with
            content := k.keylog_file.content ++ keylogLine cr mk },
          k.written_items ++ [cr]⟩ cr2 mk2 =
      Except.ok ⟨{ k.keylog_file with
          content := k.keylog_file.content ++ keylogLine cr mk ++ keylogLine cr2 mk2 },
        k.written_items ++ [cr, cr2]⟩) := by
  have h1 := notify_fresh k cr mk hclosed hascii hmem
  refine ⟨h1, ?_, ?_, ?_⟩
  · rw [List.count_append]
    rw [List.count_eq_zero.mpr hmem]
    simp
  · intro n
    have hdup : Keylog.notify
        ⟨{ k.keylog_file with
            content := k.keylog_file.content ++ keylogLine cr mk },
          k.written_items ++ [cr]⟩ cr mk =
        Except.ok ⟨{ k.keylog_file with
            content := k.keylog_file.content ++ keylogLine cr mk },
          k.written_items ++ [cr]⟩ :=
      notify_dup _ _ _ (by simp)
    have hiter : ∀ m, notifyIter cr mk m
        ⟨{ k.keylog_file with
            content := k.keylog_file.content ++ keylogLine cr mk },
          k.written_items ++ [cr]⟩ =
        Except.ok ⟨{ k.keylog_file with
            content := k.keylog_file.content ++ keylogLine cr mk },
          k.written_items ++ [cr]⟩ := by
      intro m
      induction m with
      | zero => rfl
      | succ m ih => simp [notifyIter, hdup, ih]
    simp [notifyIter, h1, hiter n]
  · intro cr2 mk2 hne hmem2 hascii2
    have hmem2' : cr2 ∉ k.written_items ++ [cr] := by
      simp [List.mem_append, hmem2, hne]
    have h2 := notify_fresh
      ⟨{ k.keylog_file with
          content := k.keylog_file.content ++ keylogLine cr mk },
        k.written_items ++ [cr]⟩ cr2 mk2 hclosed hascii2 hmem2'
    rw [h2]
    simp

/-- Witness for C2 at a fresh empty keylog with `cr = "AA"`, `mk = "BB"`,
two iterations, and a second fingerprint `"CC"`. -/
theorem notify_idempotent_app :
    klEmpty.keylog_file.closed = false ∧
    isAsciiString (keylogLine "AA" "BB") = true ∧
    "AA" ∉ klEmpty.written_items ∧
    (klEmpty.written_items ++ ["AA"]).count "AA" = 1 ∧
    notifyIter "AA" "BB" 2 klEmpty =
      Except.ok ⟨{ klEmpty.keylog_file with
          content := klEmpty.keylog_file.content ++ keylogLine "AA" "BB" },
        klEmpty.written_items ++ ["AA"]⟩ ∧
    Keylog.notify
      ⟨{ klEmpty.keylog_file with
          content := klEmpty.keylog_file.content ++ keylogLine "AA" "BB" },
        klEmpty.written_items ++ ["AA"]⟩ "CC" "DD" =
      Except.ok ⟨{ klEmpty.keylog_file with
          content := klEmpty.keylog_file.content ++ keylogLine "AA" "BB" ++ keylogLine "CC" "DD" },
        klEmpty.written_items ++ ["AA", "CC"]⟩ :=
  ⟨rfl, by decide, by decide,
   (notify_idempotent klEmpty "AA" "BB" rfl (by decide) (by decide)).2.1,
   (notify_idempotent klEmpty "AA" "BB" rfl (by decide) (by decide)).2.2.1 1,
   (notify_idempotent klEmpty "AA" "BB" rfl (by decide) (by decide)).2.2.2 "CC" "DD"
     (by decide) (by decide) (by decide)⟩

/-! ### C3: log line format -/

/-- C3: a newly observed key pair appends exactly
`CLIENT_RANDOM <64 uppercase hex> <96 uppercase hex>\n`, the hex parts being
the 32-byte client random and 48-byte master secret rendered by
`_read_as_hex`. -/
theorem keylog_line_format (crb mkb : List (Fin 256)) (k : Keylog)
    (hcr : crb.length = 32) (hmk : mkb.length = 48)
    (hclosed : k.keylog_file.closed = false)
    (hmem : _read_as_hex crb 32 ∉ k.written_items) :
    Keylog.notify k (_read_as_hex crb 32) (_read_as_hex mkb 48) =
      Except.ok ⟨{ k.keylog_file with
          content := k.keylog_file.content ++
            ("CLIENT_RANDOM " ++ _read_as_hex crb 32 ++ " " ++
              _read_as_hex mkb 48 ++ "\n") },
        k.written_items ++ [_read_as_hex crb 32]⟩ ∧
    (_read_as_hex crb 32).length = 64 ∧
    (_read_as_hex mkb 48).length = 96 ∧
    strUpperHex (_read_as_hex crb 32) = true ∧
    strUpperHex (_read_as_hex mkb 48) = true := by
  have hu1 := read_as_hex_upper crb 32 hcr
  have hu2 := read_as_hex_upper mkb 48 hmk
  have hascii := keylogLine_ascii _ _ (strUpper_ascii _ hu1) (strUpper_ascii _ hu2)
  refine ⟨?_, read_as_hex_length crb 32 hcr, read_as_hex_length mkb 48 hmk, hu1, hu2⟩
  exact notify_fresh k (_read_as_hex crb 32) (_read_as_hex mkb 48) hclosed hascii hmem

/-- Witness for C3: 32 bytes of `0xAB` and 48 bytes of `0xCD` produce
exactly `CLIENT_RANDOM ABAB...AB CDCD...CD\n`. -/
theorem keylog_line_format_app :
    (List.replicate 32 (0xAB : Fin 256)).length = 32 ∧
    (List.replicate 48 (0xCD : Fin 256)).length = 48 ∧
    klEmpty.keylog_file.closed = false ∧
    _read_as_hex (List.replicate 32 (0xAB : Fin 256)) 32 ∉ klEmpty.written_items ∧
    _read_as_hex (List.replicate 32 (0xAB : Fin 256)) 32 =
      "ABABABABABABABABABABABABABABABABABABABABABABABABABABABABABABABAB" ∧
    _read_as_hex (List.replicate 48 (0xCD : Fin 256)) 48 =
      "CDCDCDCDCDCDCDCDCDCDCDCDCDCDCDCDCDCDCDCDCDCDCDCDCDCDCDCDCDCDCDCDCDCDCDCDCDCDCDCDCDCDCDCDCDCDCDCD" ∧
    Keylog.notify klEmpty (_read_as_hex (List.replicate 32 (0xAB : Fin 256)) 32)
        (_read_as_hex (List.replicate 48 (0xCD : Fin 256)) 48) =
      Except.ok ⟨{ klEmpty.keylog_file with
          content := klEmpty.keylog_file.content ++
            ("CLIENT_RANDOM " ++ _read_as_hex (List.replicate 32 (0xAB : Fin 256)) 32 ++ " " ++
              _read_as_hex (List.replicate 48 (0xCD : Fin 256)) 48 ++ "\n") },
        klEmpty.written_items ++ [_read_as_hex (List.replicate 32 (0xAB : Fin 256)) 32]⟩ :=
  ⟨by decide, by decide, rfl, by decide, by decide, by decide,
   (keylog_line_format (List.replicate 32 (0xAB : Fin 256))
     (List.replicate 48 (0xCD : Fin 256)) klEmpty
     (by decide) (by decide) rfl (by decide)).1⟩

/-! ### C9: deduplication ignores the master secret -/

/-- C9: after `notify cr mk1`, a later `notify cr mk2` (any `mk2`, equal or
not) is an exact no-op: nothing is written, the fingerprint set is not
modified, and the log permanently retains the line pairing `cr` with
`mk1`. -/
theorem notify_dedup_ignores_mk (k : Keylog) (cr mk1 mk2 : String)
    (hclosed : k.keylog_file.closed = false)
    (hascii : isAsciiString (keylogLine cr mk1) = true)
    (hmem : cr ∉ k.written_items) :
    Keylog.notify k cr mk1 =
      Except.ok ⟨{ k.keylog_file with
          content := k.keylog_file.content ++ keylogLine cr mk1 },
        k.written_items ++ [cr]⟩ ∧
    Keylog.notify
      ⟨{ k.keylog_file with
          content := k.keylog_file.content ++ keylogLine cr mk1 },
        k.written_items ++ [cr]⟩ cr mk2 =
      Except.ok ⟨{ k.keylog_file with
          content := k.keylog_file.content ++ keylogLine cr mk1 },
        k.written_items ++ [cr]⟩ := by
  refine ⟨notify_fresh k cr mk1 hclosed hascii hmem, ?_⟩
  exact notify_dup _ _ _ (by simp)

/-- Witness for C9: same fingerprint with a different master secret is
silently discarded. -/
theorem notify_dedup_ignores_mk_app :
    klEmpty.keylog_file.closed = false ∧
    isAsciiString (keylogLine "AA" "BB") = true ∧
    "AA" ∉ klEmpty.written_items ∧
    Keylog.notify
      ⟨{ klEmpty.keylog_file with
          content := klEmpty.keylog_file.content ++ keylogLine "AA" "BB" },
        klEmpty.written_items ++ ["AA"]⟩ "AA" "EE" =
      Except.ok ⟨{ klEmpty.keylog_file with
          content := klEmpty.keylog_file.content ++ keylogLine "AA" "BB" },
        klEmpty.written_items ++ ["AA"]⟩ :=
  ⟨rfl, by decide, by decide,
   (notify_dedup_ignores_mk klEmpty "AA" "BB" "EE" rfl (by decide) (by decide)).2⟩

/-! ### C8: firing after stop is NOT a guarded no-op -/

/-- Counterexample to C8 as stated: with the log closed and a fresh
fingerprint, the write is attempted and the `ValueError` escapes the
`SKLFinishBreakpoint.stop` notify path — the code has no guard for a
closed log. -/
theorem notify_closed_cex :
    klClosed.keylog_file.closed = true ∧
    SKLFinishBreakpoint_stop connValid klClosed =
      Except.error ("ValueError: I/O operation on closed file", klClosed) := by
  constructor
  · rfl
  · rfl

/-- C8 (amended): a post-stop firing against a closed log is a no-op only
when the fingerprint was already logged; for a fresh fingerprint the write
is attempted unguarded and the I/O error propagates out of `notify` and out
of the `SKLFinishBreakpoint.stop` callback. -/
theorem notify_closed_behavior (k : Keylog) (hclosed : k.keylog_file.closed = true) :
    (∀ cr mk, cr ∈ k.written_items → Keylog.notify k cr mk = Except.ok k) ∧
    (∀ cr mk, cr ∉ k.written_items → isAsciiString (keylogLine cr mk) = true →
      Keylog.notify k cr mk =
        Except.error ("ValueError: I/O operation on closed file", k)) ∧
    (∀ ssl_ptr, get_keylog_line ssl_ptr = none →
      SKLFinishBreakpoint_stop ssl_ptr k = Except.ok (k, false)) ∧
    (∀ ssl_ptr p, get_keylog_line ssl_ptr = some p →
      p.1 ∉ k.written_items → isAsciiString (keylogLine p.1 p.2) = true →
      SKLFinishBreakpoint_stop ssl_ptr k =
        Except.error ("ValueError: I/O operation on closed file", k)) := by
  refine ⟨?_, ?_, ?_, ?_⟩
  · intro cr mk h
    exact notify_dup k cr mk h
  · intro cr mk hmem hascii
    exact notify_closed_fresh k cr mk hclosed hascii hmem
  · intro ssl_ptr h
    simp [SKLFinishBreakpoint_stop, h]
  · intro ssl_ptr p h hmem hascii
    simp [SKLFinishBreakpoint_stop, h,
      notify_closed_fresh k p.1 p.2 hclosed hascii hmem]

/-- Witness for C8 (amended): duplicate fingerprint is a no-op on the closed
log, fresh fingerprint raises. -/
theorem notify_closed_behavior_app :
    klClosed.keylog_file.closed = true ∧
    "AA" ∉ klClosed.written_items ∧
    isAsciiString (keylogLine "AA" "BB") = true ∧
    Keylog.notify klClosed "AA" "BB" =
      Except.error ("ValueError: I/O operation on closed file", klClosed) ∧
    Keylog.notify ⟨klClosed.keylog_file, ["AA"]⟩ "AA" "BB" =
      Except.ok ⟨klClosed.keylog_file, ["AA"]⟩ :=
  ⟨rfl, by decide, by decide,
   (notify_closed_behavior klClosed rfl).2.1 "AA" "BB" (by decide) (by decide),
   (notify_closed_behavior ⟨klClosed.keylog_file, ["AA"]⟩ rfl).1 "AA" "BB" (by decide)⟩

/-! ### Keylog.create behaviour -/

theorem string_empty_append (s : String) : "" ++ s = s := by
  cases s; rfl

theorem string_beq_len_zero (s : String) (h : s ≠ "") : (s.length == 0) = false := by
  cases s with
  | mk l =>
    cases l with
    | nil => exact absurd rfl h
    | cons c cs => rfl

theorem create_ab_empty_seekable (m : Medium) (h1 : m.openAbErrno = none)
    (h2 : m.seekable = true) (h3 : m.content = "") :
    Keylog.create m = Except.ok ⟨⟨_SSL_KEYLOG_HEADER, true, false⟩, []⟩ := by
  simp [Keylog.create, needs_header, FileHandle.write, h1, h2, h3, string_empty_append]

theorem create_ab_nonempty (m : Medium) (h1 : m.openAbErrno = none)
    (h3 : m.content ≠ "") :
    Keylog.create m = Except.ok ⟨⟨m.content, m.seekable, false⟩, []⟩ := by
  simp [Keylog.create, needs_header, h1, string_beq_len_zero m.content h3]

theorem create_ab_unseekable (m : Medium) (h1 : m.openAbErrno = none)
    (h2 : m.seekable = false) :
    Keylog.create m = Except.ok ⟨⟨m.content, false, false⟩, []⟩ := by
  simp [Keylog.create, needs_header, h1, h2]

theorem create_espipe (m : Medium) (h : m.openAbErrno = some ESPIPE) :
    Keylog.create m = Except.ok ⟨⟨"", false, false⟩, []⟩ := by
  simp [Keylog.create, needs_header, h]

theorem create_oserror (m : Medium) (e : Nat) (h : m.openAbErrno = some e)
    (hne : e ≠ ESPIPE) :
    Keylog.create m = Except.error ("OSError errno " ++ toString e) := by
  simp [Keylog.create, h, hne]

/-! ### C4: the header is written exactly once, only on a confirmed-empty file -/

/-- C4: `Keylog.create` writes the fixed header exactly when the position
probe confirms the opened file empty: it is written on an empty seekable
append-opened file, never on a file with existing content, silently skipped
when the probe raises (unseekable stream), and skipped in the `ESPIPE`
write-mode fallback (whose stream cannot `tell`). -/
theorem create_header_once (m : Medium) :
    (m.openAbErrno = none → m.seekable = true → m.content = "" →
      Keylog.create m = Except.ok ⟨⟨_SSL_KEYLOG_HEADER, true, false⟩, []⟩) ∧
    (m.openAbErrno = none → m.content ≠ "" →
      Keylog.create m = Except.ok ⟨⟨m.content, m.seekable, false⟩, []⟩) ∧
    (m.openAbErrno = none → m.seekable = false →
      Keylog.create m = Except.ok ⟨⟨m.content, false, false⟩, []⟩) ∧
    (m.openAbErrno = some ESPIPE →
      Keylog.create m = Except.ok ⟨⟨"", false, false⟩, []⟩) :=
  ⟨create_ab_empty_seekable m, create_ab_nonempty m,
   create_ab_unseekable m, create_espipe m⟩

/-- Witness for C4 at four concrete media: empty seekable file (header),
file with existing content (no header), unseekable empty stream (no
header), `ESPIPE` fallback (no header). -/
theorem create_header_once_app :
    Keylog.create ⟨none, "", true⟩ =
      Except.ok ⟨⟨_SSL_KEYLOG_HEADER, true, false⟩, []⟩ ∧
    ("# old\n" : String) ≠ "" ∧
    Keylog.create ⟨none, "# old\n", true⟩ =
      Except.ok ⟨⟨"# old\n", true, false⟩, []⟩ ∧
    Keylog.create ⟨none, "", false⟩ = Except.ok ⟨⟨"", false, false⟩, []⟩ ∧
    Keylog.create ⟨some ESPIPE, "", false⟩ = Except.ok ⟨⟨"", false, false⟩, []⟩ :=
  ⟨(create_header_once ⟨none, "", true⟩).1 rfl rfl rfl,
   by decide,
   (create_header_once ⟨none, "# old\n", true⟩).2.1 rfl (by decide),
   (create_header_once ⟨none, "", false⟩).2.2.1 rfl rfl,
   (create_header_once ⟨some ESPIPE, "", false⟩).2.2.2 rfl⟩

/-! ### C10: enable is atomic w.r.t. the watch-set on create failure -/

/-- C10: `enable()` creates the Keylog before touching any breakpoint, so a
`Keylog.create` failure propagates with the state exactly as it was — no
watcher installed, `_keylog_file` still unset; the `ESPIPE` case is not a
failure but the plain-write fallback. -/
theorem enable_create_failure_atomic :
    (∀ (fs : String → Medium) (st : SklState) (e : String),
      st._keylog_file = none →
      Keylog.create (fs st.keylog_filename) = Except.error e →
      enable fs st = Except.error (e, st)) ∧
    (∀ m : Medium, m.openAbErrno = some ESPIPE →
      Keylog.create m = Except.ok ⟨⟨"", false, false⟩, []⟩) := by
  constructor
  · intro fs st e hk hc
    simp [enable, hk, hc]
  · exact fun m h => create_espipe m h

/-- Witness for C10: a permission-denied medium (errno 13) makes `enable`
fail with the initial state untouched; an `ESPIPE` medium succeeds. -/
theorem enable_create_failure_atomic_app :
    initialState._keylog_file = none ∧
    Keylog.create ((fun _ : String => (⟨some 13, "", true⟩ : Medium))
        initialState.keylog_filename) =
      Except.error ("OSError errno " ++ toString (13 : Nat)) ∧
    enable (fun _ => ⟨some 13, "", true⟩) initialState =
      Except.error ("OSError errno " ++ toString (13 : Nat), initialState) ∧
    Keylog.create ⟨some ESPIPE, "", false⟩ = Except.ok ⟨⟨"", false, false⟩, []⟩ :=
  ⟨rfl,
   create_oserror ⟨some 13, "", true⟩ 13 rfl (by decide),
   enable_create_failure_atomic.1 (fun _ => ⟨some 13, "", true⟩) initialState
     ("OSError errno " ++ toString (13 : Nat)) rfl
     (create_oserror ⟨some 13, "", true⟩ 13 rfl (by decide)),
   enable_create_failure_atomic.2 ⟨some ESPIPE, "", false⟩ rfl⟩

/-! ### C5: stop() cannot close the keylog — defect in the source -/

/-- C5 (code defect): with no open keylog, `stop()` only reports
`No active keylog session`.  With an open keylog, `stop()` runs `disable()`
and then raises `TypeError` at `_keylog_file.close()` (the method is
declared without `self`); the file handle therefore stays open, no entry
count is printed, and `_keylog_file` is never cleared — contradicting both
the claim and `stop`'s own docstring. -/
theorem stop_close_defect :
    stop stOpenC5 =
      Except.error
        ("TypeError: close() takes 0 positional arguments but 1 was given",
          disable stOpenC5) ∧
    (disable stOpenC5)._keylog_file = some klOpenC5 ∧
    klOpenC5.keylog_file.closed = false ∧
    stop initialState =
      Except.ok { initialState with output := ["No active keylog session"] } := by
  refine ⟨rfl, ?_, rfl, rfl⟩
  rfl

/-! ### Fold preservation helpers for the session controller -/

theorem foldl_inv {α : Type} (P : SklState → Prop) (f : SklState → α → SklState)
    (hf : ∀ st a, P st → P (f st a)) :
    ∀ (l : List α) (st : SklState), P st → P (l.foldl f st) := by
  intro l
  induction l with
  | nil => intro st h; exact h
  | cons a t ih => intro st h; exact ih (f st a) (hf st a h)

theorem installOne_filename (st : SklState) (a : SSLSymbol) :
    (installOne st a).keylog_filename = st.keylog_filename := by
  unfold installOne; split <;> rfl

theorem installAll_filename (st : SklState) :
    (installAll st).keylog_filename = st.keylog_filename := by
  unfold installAll
  exact foldl_inv (fun s => s.keylog_filename = st.keylog_filename) installOne
    (fun s a h => by
      show (installOne s a).keylog_filename = st.keylog_filename
      rw [installOne_filename]; exact h) symbolOrder st rfl

theorem stateOf_enable_filename (fs : String → Medium) (st : SklState) :
    (stateOf (enable fs st)).keylog_filename = st.keylog_filename := by
  unfold enable
  cases hk : st._keylog_file with
  | some k =>
    simp only [stateOf]
    exact installAll_filename st
  | none =>
    cases hc : Keylog.create (fs st.keylog_filename) with
    | error e => rfl
    | ok kl =>
      simp only [stateOf]
      rw [installAll_filename]

/-! ### C6: the explicit path permanently overwrites the default -/

/-- Counterexample to C6 as stated: after `start('premaster.txt')`, a later
session started without an explicit path does NOT use the originally
configured default (`keys.log`) — the module-global `keylog_filename` was
overwritten, and the second session opens and reports `premaster.txt`. -/
theorem start_override_cex :
    initialState.keylog_filename = "keys.log" ∧
    stAfterFirst.keylog_filename = "premaster.txt" ∧
    stSecondStart.keylog_filename = "premaster.txt" ∧
    ("Started logging SSL keys to premaster.txt") ∈ stSecondStart.output ∧
    ¬ (("Started logging SSL keys to keys.log") ∈ stSecondStart.output) ∧
    ("premaster.txt" : String) ≠ "keys.log" := by
  refine ⟨rfl, rfl, rfl, ?_, ?_, by decide⟩
  · decide
  · decide

/-- C6 (amended): an explicit, nonempty path given to `start` overwrites the
module-global `keylog_filename` for this session and permanently: any later
`start` without an explicit path uses the current (most recently assigned)
`keylog_filename`, not the originally configured default. -/
theorem start_override_persists :
    (∀ (fs : String → Medium) (st : SklState) (p : String), p ≠ "" →
      (stateOf (start fs (some p) st)).keylog_filename = p) ∧
    (∀ (fs : String → Medium) (st : SklState),
      (stateOf (start fs none st)).keylog_filename = st.keylog_filename) := by
  constructor
  · intro fs st p hp
    unfold start
    simp only []
    rw [if_neg hp]
    rw [stateOf_enable_filename]
  · intro fs st
    unfold start
    rw [stateOf_enable_filename]

/-- Witness for C6 (amended) at `p = "x"` from the initial state. -/
theorem start_override_persists_app :
    ("x" : String) ≠ "" ∧
    (stateOf (start goodFs (some "x") initialState)).keylog_filename = "x" ∧
    (stateOf (start goodFs none initialState)).keylog_filename =
      initialState.keylog_filename :=
  ⟨by decide,
   start_override_persists.1 goodFs initialState "x" (by decide),
   start_override_persists.2 goodFs initialState⟩

/-! ### C7 machinery: the watch-set invariant -/

theorem installOne_loc_some (st : SklState) (a sym : SSLSymbol) (n : Nat)
    (h : st._locations sym = some n) :
    (installOne st a)._locations sym = some n := by
  unfold installOne
  cases hl : st._locations a with
  | some m => exact h
  | none =>
    show (if sym = a then some st.nextBp else st._locations sym) = some n
    by_cases hs : sym = a
    · subst hs
      rw [h] at hl
      cases hl
    · rw [if_neg hs]
      exact h

theorem installOne_output_mono (st : SklState) (a : SSLSymbol) (x : String)
    (h : x ∈ st.output) : x ∈ (installOne st a).output := by
  unfold installOne
  cases st._locations a with
  | some m => exact List.mem_append_left _ h
  | none => exact h

theorem installOne_already (st : SklState) (sym : SSLSymbol) (n : Nat)
    (h : st._locations sym = some n) :
    alreadyMsg sym ∈ (installOne st sym).output := by
  unfold installOne
  rw [h]
  exact List.mem_append_right _ (List.mem_singleton_self _)

theorem installFold_loc_some (sym : SSLSymbol) (n : Nat) :
    ∀ (l : List SSLSymbol) (st : SklState), st._locations sym = some n →
      (l.foldl installOne st)._locations sym = some n :=
  foldl_inv (fun s => s._locations sym = some n) installOne
    (fun s a h => installOne_loc_some s a sym n h)

theorem installFold_output_mono (x : String) :
    ∀ (l : List SSLSymbol) (st : SklState), x ∈ st.output →
      x ∈ (l.foldl installOne st).output :=
  foldl_inv (fun s => x ∈ s.output) installOne
    (fun s a h => installOne_output_mono s a x h)

theorem installFold_msg (sym : SSLSymbol) (n : Nat) :
    ∀ (l : List SSLSymbol) (st : SklState), sym ∈ l →
      st._locations sym = some n →
      alreadyMsg sym ∈ (l.foldl installOne st).output := by
  intro l
  induction l with
  | nil => intro st hmem _; cases hmem
  | cons a t ih =>
    intro st hmem hloc
    rw [List.foldl_cons]
    rcases List.mem_cons.mp hmem with h | h
    · subst h
      exact installFold_output_mono _ t _ (installOne_already st sym n hloc)
    · exact ih (installOne st a) h (installOne_loc_some st a sym n hloc)

theorem enableT_eq_some (st : SklState) (k : Keylog)
    (h : st._keylog_file = some k) : enableT st = installAll st := by
  unfold enableT enable
  rw [h]
  rfl

theorem enableT_eq_none (st : SklState) (h : st._keylog_file = none) :
    enableT st = installAll
      { st with
        _keylog_file := some ⟨⟨_SSL_KEYLOG_HEADER, true, false⟩, []⟩,
        output := st.output ++
          ["Started logging SSL keys to " ++ st.keylog_filename] } := by
  unfold enableT enable
  rw [h]
  rfl

theorem enableT_loc_some (st : SklState) (sym : SSLSymbol) (n : Nat)
    (h : st._locations sym = some n) :
    (enableT st)._locations sym = some n ∧
    alreadyMsg sym ∈ (enableT st).output := by
  have hmem : sym ∈ symbolOrder := by cases sym <;> simp [symbolOrder]
  cases hk : st._keylog_file with
  | some k =>
    rw [enableT_eq_some st k hk]
    exact ⟨installFold_loc_some sym n symbolOrder st h,
      installFold_msg sym n symbolOrder st hmem h⟩
  | none =>
    rw [enableT_eq_none st hk]
    exact ⟨installFold_loc_some sym n symbolOrder _ h,
      installFold_msg sym n symbolOrder _ hmem h⟩

theorem filter_comm_pairs (l : List (Nat × SSLSymbol))
    (p q : Nat × SSLSymbol → Bool) :
    (l.filter p).filter q = (l.filter q).filter p := by
  induction l with
  | nil => rfl
  | cons x t ih =>
    by_cases hp : p x <;> by_cases hq : q x <;>
      simp [List.filter_cons, hp, hq, ih]

theorem watchInv_installOne (st : SklState) (a : SSLSymbol)
    (h : WatchInv st) : WatchInv (installOne st a) := by
  obtain ⟨h1, h2, h3⟩ := h
  unfold installOne
  cases hl : st._locations a with
  | some m => exact ⟨h1, h2, h3⟩
  | none =>
    refine ⟨?_, ?_, ?_⟩
    · intro sym n hsym
      show n < st.nextBp + 1
      by_cases hs : sym = a
      · subst hs
        have : (if sym = sym then some st.nextBp else st._locations sym) = some n := hsym
        rw [if_pos rfl] at this
        injection this with h'
        omega
      · have : (if sym = a then some st.nextBp else st._locations sym) = some n := hsym
        rw [if_neg hs] at this
        exact Nat.lt_succ_of_lt (h1 sym n this)
    · intro s1 s2 n e1 e2
      have e1' : (if s1 = a then some st.nextBp else st._locations s1) = some n := e1
      have e2' : (if s2 = a then some st.nextBp else st._locations s2) = some n := e2
      by_cases hs1 : s1 = a <;> by_cases hs2 : s2 = a
      · rw [hs1, hs2]
      · rw [if_pos hs1] at e1'
        rw [if_neg hs2] at e2'
        injection e1' with e1''
        exact absurd (h1 s2 n e2') (by omega)
      · rw [if_neg hs1] at e1'
        rw [if_pos hs2] at e2'
        injection e2' with e2''
        exact absurd (h1 s1 n e1') (by omega)
      · rw [if_neg hs1] at e1'
        rw [if_neg hs2] at e2'
        exact h2 s1 s2 n e1' e2'
    · intro sym
      have hfa := h3 sym
      unfold activeFor at hfa ⊢
      show (st.activeBps ++ [(st.nextBp, a)]).filter (fun p => p.2 == sym) =
        (match (if sym = a then some st.nextBp else st._locations sym) with
         | some n => [(n, sym)]
         | none => [])
      rw [List.filter_append, hfa]
      by_cases hs : sym = a
      · subst hs
        rw [hl, if_pos rfl]
        simp
      · rw [if_neg hs]
        have hne : ((st.nextBp, a).2 == sym) = false := by
          simp
          exact fun hc => hs hc.symm
        cases hll : st._locations sym <;> simp [List.filter_cons, hne]

theorem watchInv_disableOne (st : SklState) (a : SSLSymbol)
    (h : WatchInv st) : WatchInv (disableOne st a) := by
  obtain ⟨h1, h2, h3⟩ := h
  unfold disableOne
  cases hl : st._locations a with
  | none => exact ⟨h1, h2, h3⟩
  | some n =>
    refine ⟨?_, ?_, ?_⟩
    · intro sym m hsym
      show m < st.nextBp
      have : (if sym = a then none else st._locations sym) = some m := hsym
      by_cases hs : sym = a
      · rw [if_pos hs] at this
        cases this
      · rw [if_neg hs] at this
        exact h1 sym m this
    · intro s1 s2 m e1 e2
      have e1' : (if s1 = a then none else st._locations s1) = some m := e1
      have e2' : (if s2 = a then none else st._locations s2) = some m := e2
      by_cases hs1 : s1 = a
      · rw [if_pos hs1] at e1'; cases e1'
      · by_cases hs2 : s2 = a
        · rw [if_pos hs2] at e2'; cases e2'
        · rw [if_neg hs1] at e1'
          rw [if_neg hs2] at e2'
          exact h2 s1 s2 m e1' e2'
    · intro sym
      have hfa := h3 sym
      unfold activeFor at hfa ⊢
      show ((st.activeBps.filter (fun p => p.1 != n)).filter (fun p => p.2 == sym)) =
        (match (if sym = a then none else st._locations sym) with
         | some m => [(m, sym)]
         | none => [])
      rw [filter_comm_pairs, hfa]
      by_cases hs : sym = a
      · subst hs
        rw [hl, if_pos rfl]
        simp
      · rw [if_neg hs]
        cases hll : st._locations sym with
        | none => rfl
        | some m =>
          have hmn : m ≠ n := by
            intro hmn
            subst hmn
            exact hs (h2 sym a m hll hl)
          simp [List.filter_cons, hmn]

theorem watchInv_installAll (st : SklState) (h : WatchInv st) :
    WatchInv (installAll st) :=
  foldl_inv WatchInv installOne watchInv_installOne symbolOrder st h

theorem watchInv_disable (st : SklState) (h : WatchInv st) :
    WatchInv (disable st) :=
  foldl_inv WatchInv disableOne watchInv_disableOne symbolOrder st h

theorem enable_goodFs_ok (st : SklState) :
    enable goodFs st = Except.ok (enableT st) := by
  unfold enableT stateOf enable
  cases st._keylog_file with
  | some k => rfl
  | none => rfl

theorem watchInv_enableT (st : SklState) (h : WatchInv st) :
    WatchInv (enableT st) := by
  cases hk : st._keylog_file with
  | some k =>
    rw [enableT_eq_some st k hk]
    exact watchInv_installAll st h
  | none =>
    rw [enableT_eq_none st hk]
    exact watchInv_installAll _ h

theorem watchInv_initial : WatchInv initialState := by
  refine ⟨?_, ?_, ?_⟩
  · intro sym n h
    simp [initialState] at h
  · intro s1 s2 n e1 e2
    simp [initialState] at e1
  · intro sym
    simp [activeFor, initialState]

theorem watchInv_runT (ops : List SklOp) : WatchInv (runT ops initialState) := by
  unfold runT
  exact foldl_inv WatchInv stepT
    (fun st op h => by
      cases op with
      | enable => exact watchInv_enableT st h
      | disable => exact watchInv_disable st h) ops initialState watchInv_initial

theorem runOps_goodFs_ok : ∀ (ops : List SklOp) (st : SklState),
    runOps goodFs ops st = Except.ok (runT ops st) := by
  intro ops
  induction ops with
  | nil => intro st; rfl
  | cons op t ih =>
    intro st
    cases op with
    | enable =>
      show (match stepOp goodFs st SklOp.enable with
        | Except.error e => Except.error e
        | Except.ok st1 => runOps goodFs t st1) = _
      unfold stepOp
      rw [enable_goodFs_ok st]
      exact ih (enableT st)
    | disable => exact ih (disable st)

/-! ### C7: at most one active watcher per symbol -/

/-- C7: `enable goodFs` never fails, and after any sequence of `enable` and
`disable` calls from the initial state each of the five symbols has at most
one live breakpoint; `enable` on an already-watched symbol leaves its
watcher in place and reports the informational message; `enable` changes a
symbol's `_locations` entry only if the symbol was not watched. -/
theorem watch_set_inv :
    (∀ st : SklState, enable goodFs st = Except.ok (enableT st)) ∧
    (∀ ops : List SklOp, runOps goodFs ops initialState =
      Except.ok (runT ops initialState)) ∧
    (∀ (ops : List SklOp) (sym : SSLSymbol),
      (activeFor (runT ops initialState) sym).length ≤ 1) ∧
    (∀ (st : SklState) (sym : SSLSymbol) (n : Nat),
      st._locations sym = some n →
      (enableT st)._locations sym = some n ∧
      alreadyMsg sym ∈ (enableT st).output) ∧
    (∀ (st : SklState) (sym : SSLSymbol),
      (enableT st)._locations sym ≠ st._locations sym →
      st._locations sym = none) := by
  refine ⟨enable_goodFs_ok, fun ops => runOps_goodFs_ok ops initialState, ?_, ?_, ?_⟩
  · intro ops sym
    have h := (watchInv_runT ops).2.2 sym
    rw [h]
    cases (runT ops initialState)._locations sym <;> simp
  · intro st sym n h
    exact enableT_loc_some st sym n h
  · intro st sym hne
    cases hl : st._locations sym with
    | none => rfl
    | some n =>
      exact absurd ((enableT_loc_some st sym n hl).1.trans hl.symm) hne

/-- Witness for C7: an already-watched `SSL_write` (breakpoint 7) survives a
further `enable` which reports the message; and after
`enable; enable; disable` from scratch, `SSL_read` has at most one live
breakpoint. -/
theorem watch_set_inv_app :
    stWatched._locations SSLSymbol.SSL_write = some 7 ∧
    (enableT stWatched)._locations SSLSymbol.SSL_write = some 7 ∧
    alreadyMsg SSLSymbol.SSL_write ∈ (enableT stWatched).output ∧
    (activeFor (runT [SklOp.enable, SklOp.enable, SklOp.disable] initialState)
      SSLSymbol.SSL_read).length ≤ 1 := by
  have h := watch_set_inv.2.2.2.1 stWatched SSLSymbol.SSL_write 7 rfl
  exact ⟨rfl, h.1, h.2,
    watch_set_inv.2.2.1 [SklOp.enable, SklOp.enable, SklOp.disable]
      SSLSymbol.SSL_read⟩
